import Mathlib

/-!
Verification of the stream-orchestration and caching core of the RAG query
service implemented in `src/webclient/search_backend.py`.

The Python source is shallowly embedded below: pure computations become Lean
functions, the fallible steps (HTTP status checks, `KeyError`/`TypeError`
raising accesses, the `try`/`except` blocks) become `Option`/`Except` values
or explicit outcome constructors, and the generator pipeline
(`_raw_stream_response` / `stream_and_upload_to_kv` / `query_function`)
becomes functions from an environment describing the external collaborators
(search provider, completion provider, key-value cache) to the emitted chunk
list plus an effect record.
-/

set_option maxRecDepth 20000

/-- `REFERENCES_COUNT = 4` from the source. -/
def REFERENCES_COUNT : Nat := 4

/-- `DEFAULT_SEARCH_ENGINE_TIMEOUT = 5` from the source (seconds). -/
def DEFAULT_SEARCH_ENGINE_TIMEOUT : Nat := 5

/-- `def_query` from the source: the default query substituted for an empty
user query. -/
def def_query : String :=
  "Which character on the show \x27The Big Bang Theory\x27 idolizes Spock the most?"

/-- `stop_words` from the source: stop sequences passed to the completion
call. -/
def stop_words : List String :=
  ["<|im_end|>", "[End]", "[end]", "\nReferences:\n", "\nSources:\n", "End."]

/-- Python truthiness of a `dict.get` result: `None` and the empty string are
falsy, every other string is truthy. -/
def pyTruthy (o : Option String) : Bool :=
  match o with
  | none => false
  | some s => s ≠ ""

/-- Python `a or b` on two `dict.get` results (used e.g. in
`content[\x27knowledgeGraph\x27].get("descriptionUrl") or
content[\x27knowledgeGraph\x27].get(\x27website\x27)`). -/
def pyOr (a b : Option String) : Option String :=
  if pyTruthy a then a else b

/-- Python `sep.join(parts)`. -/
def joinSep (sep : String) : List String → String
  | [] => ""
  | [s] => s
  | s :: rest => s ++ sep ++ joinSep sep rest

/-- A search context `{"name": ..., "url": ..., "snippet": ...}` as built by
the search adapters. -/
structure Context where
  name : String
  url : String
  snippet : String
deriving DecidableEq

/-- The possible outcomes of one of the two search adapter functions.
`httpStatusError` models `raise HTTPException(status, msg)` on a non-success
provider status; `typeError` models an uncaught Python `TypeError` escaping
the function; `pyNone` models the function falling off its end and returning
`None`. -/
inductive SearchOutcome where
  | ok (contexts : List Context)
  | httpStatusError (status : Nat) (detail : String)
  | typeError
  | pyNone
deriving DecidableEq

/-- `requests` truthiness of `response.ok`: status code below 400. -/
def respOk (status : Nat) : Bool := status < 400

/-- The `knowledgeGraph` object of a Serper response; each field models
`.get(...)` (absent key ↦ `none`). -/
structure SerperKG where
  title : Option String
  descriptionUrl : Option String
  website : Option String
  description : Option String

/-- The `answerBox` object of a Serper response. -/
structure SerperAB where
  title : Option String
  url : Option String
  snippet : Option String
  answer : Option String

/-- One entry of the `organic` list of a Serper response. -/
structure SerperOrganic where
  title : Option String
  link : Option String
  snippet : Option String

/-- The JSON body of a Serper response, restricted to the fields the source
reads, together with the HTTP status code. -/
structure SerperResponse where
  status : Nat
  knowledgeGraph : Option SerperKG
  answerBox : Option SerperAB
  organic : Option (List SerperOrganic)

/-- Contexts contributed by `content.get(\x27knowledgeGraph\x27)` in
`search_with_serper`. -/
def serperKGContexts (okg : Option SerperKG) : List Context :=
  match okg with
  | none => []
  | some kg =>
    let url := pyOr kg.descriptionUrl kg.website
    let snippet := kg.description
    if pyTruthy url && pyTruthy snippet then
      [⟨kg.title.getD "", url.getD "", snippet.getD ""⟩]
    else []

/-- Contexts contributed by `content.get(\x27answerBox\x27)` in
`search_with_serper`. -/
def serperABContexts (oab : Option SerperAB) : List Context :=
  match oab with
  | none => []
  | some ab =>
    let url := ab.url
    let snippet := pyOr ab.snippet ab.answer
    if pyTruthy url && pyTruthy snippet then
      [⟨ab.title.getD "", url.getD "", snippet.getD ""⟩]
    else []

/-- `search_with_serper(query, key)` from the source, as a function of the
provider response.  On a non-success status it raises
`HTTPException(status_code, "search engine error.")`.  Inside the `try` block
only `KeyError` is caught (caught ↦ the function then returns `[]`).  The
organic-results comprehension contains `c.get["snippet", ""]`, which
subscripts the bound method `c.get` and raises `TypeError` as soon as the
first organic entry has both a `title` and a `link` (the dict literal
evaluates `c["title"]`, then `c["link"]`, then `c.get[...]`); that
`TypeError` is not caught and escapes the function. -/
def searchWithSerper (resp : SerperResponse) : SearchOutcome :=
  if !respOk resp.status then .httpStatusError resp.status "search engine error."
  else
    let base := serperKGContexts resp.knowledgeGraph ++ serperABContexts resp.answerBox
    match resp.organic with
    | none => .ok []
    | some [] => .ok (base.take REFERENCES_COUNT)
    | some (e :: _) =>
      match e.title, e.link with
      | none, _ => .ok []
      | some _, none => .ok []
      | some _, some _ => .typeError

/-- The `source` sub-object used by SearchAPI knowledge-graph and
related-question entries. -/
structure SASource where
  link : Option String

/-- The `answer_box` object of a SearchAPI response.  The source also reads
`organic_result`, `type`, `place` and `explore_more_link` into local
variables, but those assignments are dead: `title` and `url` are
unconditionally overwritten by `answer_box.get("title", "")` and
`answer_box.get("link")` immediately afterwards, so only the four fields
below are observable. -/
structure SAAnswerBox where
  title : Option String
  link : Option String
  answer : Option String
  snippet : Option String

/-- The `knowledge_graph` object of a SearchAPI response.  The read of
`knowledge_graph.get("source").get("link", "")` is dead for the same reason:
`url` is unconditionally overwritten by `knowledge_graph.get("website", "")`. -/
structure SAKnowledgeGraph where
  title : Option String
  website : Option String
  description : Option String
  source : Option SASource

/-- One entry of the `organic_results` list of a SearchAPI response. -/
structure SAOrganic where
  title : Option String
  link : Option String
  snippet : Option String

/-- One entry of the `related_questions` list of a SearchAPI response. -/
structure SARelatedQuestion where
  question : Option String
  source : Option SASource
  answer : Option String

/-- The JSON body of a SearchAPI response, restricted to the fields the
source reads, together with the HTTP status code. -/
structure SearchApiResponse where
  status : Nat
  answer_box : Option SAAnswerBox
  knowledge_graph : Option SAKnowledgeGraph
  organic_results : Option (List SAOrganic)
  related_questions : Option (List SARelatedQuestion)

/-- Contexts contributed by `answer_box` in `search_with_searchapi`
(effective semantics after the dead assignments). -/
def saAnswerBoxContexts (oab : Option SAAnswerBox) : List Context :=
  match oab with
  | none => []
  | some ab =>
    let title := ab.title.getD ""
    let url := ab.link
    let snippet := pyOr ab.answer ab.snippet
    if pyTruthy url && pyTruthy snippet then
      [⟨title, url.getD "", snippet.getD ""⟩]
    else []

/-- Contexts contributed by `knowledge_graph` in `search_with_searchapi`
(effective semantics after the dead assignments; `url` comes from
`.get("website", "")`, so its truthiness test is just non-emptiness). -/
def saKnowledgeGraphContexts (okg : Option SAKnowledgeGraph) : List Context :=
  match okg with
  | none => []
  | some kg =>
    let url := kg.website.getD ""
    let snippet := kg.description
    if (url ≠ "" : Bool) && pyTruthy snippet then
      [⟨kg.title.getD "", url, snippet.getD ""⟩]
    else []

/-- The `organic_results` comprehension of `search_with_searchapi`: each
entry reads `c["title"]` and `c["link"]` (a missing key raises `KeyError`,
modelled by `none`) and `c.get("snippet", "")`.  Evaluation is left to
right; the first failing entry aborts the whole comprehension. -/
def saOrganicContexts : List SAOrganic → Option (List Context)
  | [] => some []
  | c :: rest =>
    match c.title, c.link with
    | some t, some l => (saOrganicContexts rest).map (fun tail => ⟨t, l, c.snippet.getD ""⟩ :: tail)
    | _, _ => none

/-- Contexts contributed by one `related_questions` entry. -/
def saRelatedQuestionContext (q : SARelatedQuestion) : Option Context :=
  let url := match q.source with
    | some s => s.link.getD ""
    | none => ""
  let snippet := q.answer.getD ""
  if url ≠ "" && snippet ≠ "" then some ⟨q.question.getD "", url, snippet⟩ else none

/-- `search_with_searchapi(query, key)` from the source, as a function of the
provider response.  On a non-success status it raises
`HTTPException(status_code, "Search engine error.")`.  `KeyError` anywhere in
the `try` block is caught and yields `return []`.  The statement
`return contexts[:REFERENCES_COUNT]` sits inside the
`if json_content.get("related_questions"):` block, so whenever
`related_questions` is absent or an empty list the function falls off its
end and returns Python `None` (modelled by `.pyNone`). -/
def searchWithSearchapi (resp : SearchApiResponse) : SearchOutcome :=
  if !respOk resp.status then .httpStatusError resp.status "Search engine error."
  else
    let abCtxs := saAnswerBoxContexts resp.answer_box
    let kgCtxs := saKnowledgeGraphContexts resp.knowledge_graph
    match resp.organic_results with
    | none => .ok []
    | some orgs =>
      match saOrganicContexts orgs with
      | none => .ok []
      | some orgCtxs =>
        let contexts := abCtxs ++ kgCtxs ++ orgCtxs
        match resp.related_questions with
        | none => .pyNone
        | some [] => .pyNone
        | some rqs =>
          let rqCtxs := rqs.filterMap saRelatedQuestionContext
          .ok ((contexts ++ rqCtxs).take REFERENCES_COUNT)

/-- A minimal JSON value model, used for the payload returned by the
tool-call extraction in `get_related_questions`. -/
inductive Json where
  | null
  | bool (b : Bool)
  | num (n : Int)
  | str (s : String)
  | arr (elems : List Json)
  | obj (fields : List (String × Json))

/-- One hexadecimal digit, lower case. -/
def hexDigit (n : Nat) : Char :=
  if n < 10 then Char.ofNat (48 + n) else Char.ofNat (87 + (n - 10))

/-- Escaping of a single character inside a JSON string literal, modelling
the escapes `json.dumps` emits for characters the claims can meet
(quote, backslash, and control characters). -/
def jsonEscapeChar (c : Char) : String :=
  if c = '\"' then "\\\""
  else if c = '\\' then "\\\\"
  else if c = '\n' then "\\n"
  else if c = '\r' then "\\r"
  else if c = '\t' then "\\t"
  else if c.toNat < 32 then
    "\\u00" ++ String.mk [hexDigit (c.toNat / 16), hexDigit (c.toNat % 16)]
  else String.mk [c]

/-- A JSON string literal for `s` (model of `json.dumps` on a `str`). -/
def jsonStringLit (s : String) : String :=
  "\"" ++ String.join (s.data.map jsonEscapeChar) ++ "\""

mutual

/-- Model of `json.dumps` on a JSON value, with the default separators
`", "` and `": "` used by the source. -/
def jsonDump : Json → String
  | .null => "null"
  | .bool true => "true"
  | .bool false => "false"
  | .num n => toString n
  | .str s => jsonStringLit s
  | .arr l => "[" ++ jsonDumpList l ++ "]"
  | .obj fs => "\x7b" ++ jsonDumpFields fs ++ "\x7d"

/-- Comma-separated dump of a list of JSON values. -/
def jsonDumpList : List Json → String
  | [] => ""
  | [x] => jsonDump x
  | x :: xs => jsonDump x ++ ", " ++ jsonDumpList xs

/-- Comma-separated dump of the fields of a JSON object. -/
def jsonDumpFields : List (String × Json) → String
  | [] => ""
  | [p] => jsonStringLit p.1 ++ ": " ++ jsonDump p.2
  | p :: ps => jsonStringLit p.1 ++ ": " ++ jsonDump p.2 ++ ", " ++ jsonDumpFields ps

end

/-- `json.dumps(contexts)`: the first chunk of the stream, a JSON array of
the context dicts in order. -/
def contextsJson (ctxs : List Context) : String :=
  "[" ++ joinSep ", "
      (ctxs.map fun c =>
        "\x7b\"name\": " ++ jsonStringLit c.name
          ++ ", \"url\": " ++ jsonStringLit c.url
          ++ ", \"snippet\": " ++ jsonStringLit c.snippet ++ "\x7d")
    ++ "]"

/-- The text of `_rag_query_text` before the `{context}` placeholder. -/
def ragTemplateHead : String := "\nYou are a large language AI assistant. You are given a user question, and please write clean, concise and accurate answer to the question. You will be given a set of related contexts to the question, each starting with a reference number like [[citation:x]], where x is a number. Please use the context and cite the context at the end of each sentence if applicable.\n\nYour answer must be correct, accurate and written by an expert using an unbiased and professional tone. Please limit to 1024 tokens. Do not give any information that is not related to the question, and do not repeat. Say \"information is missing on\" followed by the related topic, if the given context do not provide sufficient information.\n\nPlease cite the contexts with the reference numbers, in the format [citation:x]. If a sentence comes from multiple contexts, please list all applicable citations, like [citation:3][citation:5]. Other than code and specific names and citations, your answer must be written in the same language as the question.\n\nHere are the set of contexts:\n\n"

/-- The text of `_rag_query_text` after the `{context}` placeholder. -/
def ragTemplateTail : String := "\n\nRemember, don\x27t blindly repeat the contexts verbatim. And here is the user question:\n"

/-- `_rag_query_text` from the source (one literal with a `{context}`
placeholder). -/
def _rag_query_text : String := ragTemplateHead ++ "{context}" ++ ragTemplateTail

/-- `_rag_query_text.format(context=...)`: Python `str.format` with the
single `{context}` placeholder replaced by the given context block. -/
def formatRagQuery (contextBlockText : String) : String :=
  ragTemplateHead ++ contextBlockText ++ ragTemplateTail

/-- Python `enumerate`, starting at the given index. -/
def enumerateFrom {α : Type} (i : Nat) : List α → List (Nat × α)
  | [] => []
  | a :: rest => (i, a) :: enumerateFrom (i + 1) rest

/-- Python `enumerate(l)`. -/
def pyEnumerate {α : Type} (l : List α) : List (Nat × α) := enumerateFrom 0 l

/-- One line of the context block:
`f"[[citation:{i+1}]] {c[\x27snippet\x27]}"`. -/
def citationLine (i : Nat) (c : Context) : String :=
  "[[citation:" ++ toString (i + 1) ++ "]] " ++ c.snippet

/-- The context block interpolated into the system prompt:
`"\n\n".join([f"[[citation:{i+1}]] {c[\x27snippet\x27]}" for i, c in enumerate(contexts)])`. -/
def contextBlock (ctxs : List Context) : String :=
  joinSep "\n\n" ((pyEnumerate ctxs).map fun p => citationLine p.1 p.2)

/-- The system prompt built in `query_function`:
`_rag_query_text.format(context=...)`. -/
def ragSystemPrompt (ctxs : List Context) : String :=
  formatRagQuery (contextBlock ctxs)

/-- The text of `_more_questions_prompt` before the `{context}` placeholder. -/
def moreQuestionsHead : String := "\nYou are a helpful assistant that helps the user to ask related questions, based on user\x27s original question and the related contexts. Please identify worthwhile topics that can be follow-ups, and write questions no longer than 20 words each. Please make sure that specifics, like events, names, locations, are included in follow up questions so they can be asked standalone. For example, if the original question asks about \"the Manhattan project\", in the follow up question, do not just say \"the project\", but use the full name \"the Manhattan project\". Your related questions must be in the same language as the original question.\n\nHere are the contexts of the question:\n\n"

/-- The text of `_more_questions_prompt` after the `{context}` placeholder. -/
def moreQuestionsTail : String := "\n\nRemember, based on the original question and related contexts, suggest three such further questions. Do NOT repeat the original question. Each related question should be no longer than 20 words. Here is the original question:\n"

/-- The system prompt built in `get_related_questions`:
`_more_questions_prompt.format(context="\n\n".join([c["snippet"] for c in contexts]))`. -/
def moreQuestionsPrompt (ctxs : List Context) : String :=
  moreQuestionsHead ++ joinSep "\n\n" (ctxs.map fun c => c.snippet) ++ moreQuestionsTail

/-- `tool_call.function.arguments` of the completion response: either a JSON
string still to be parsed (`isinstance(related, str)` branch) or an already
decoded value. -/
inductive ToolArguments where
  | fromStr (s : String)
  | fromJson (j : Json)

/-- The `function` member of a tool call. -/
structure ToolFunction where
  arguments : ToolArguments

/-- One tool call of the completion response. -/
structure ToolCall where
  function : ToolFunction

/-- The `message` member of a completion choice; `tool_calls` is `None` when
the model produced no tool call (subscripting it then raises `TypeError`). -/
structure ChatMessage where
  tool_calls : Option (List ToolCall)

/-- One choice of a (non-streaming) completion response. -/
structure ChatChoice where
  message : ChatMessage

/-- A non-streaming completion response as read by `get_related_questions`. -/
structure ChatResponse where
  choices : List ChatChoice

/-- The value `get_related_questions` returns on success:
`related["questions"][:5]` is a list slice when `questions` decodes to a
JSON array and a string slice when it decodes to a string. -/
inductive RelatedAnswer where
  | list (qs : List Json)
  | text (s : String)

/-- Number of entries of a related-questions result. -/
def relatedLen : RelatedAnswer → Nat
  | .list qs => qs.length
  | .text s => s.length

/-- The body of the `try` block of `get_related_questions`, as a function of
the completion call outcome and of the behaviour of `json.loads` (an
external collaborator, abstracted as a partial parse function).  Every
Python exception point maps to `.error ()`: a failing completion call,
`choices[0]` on an empty list, subscripting `tool_calls` when it is `None`
or empty, a `json.loads` failure, and `related["questions"]` on a value
that is not a dict with that key or whose value cannot be sliced. -/
def getRelatedInner (parse : String → Option Json) (call : Except Unit ChatResponse) :
    Except Unit RelatedAnswer :=
  match call with
  | .error _ => .error ()
  | .ok resp =>
    match resp.choices with
    | [] => .error ()
    | choice :: _ =>
      match choice.message.tool_calls with
      | none => .error ()
      | some [] => .error ()
      | some (tc :: _) =>
        let argsJson : Option Json :=
          match tc.function.arguments with
          | .fromStr s => parse s
          | .fromJson j => some j
        match argsJson with
        | none => .error ()
        | some related =>
          match related with
          | .obj fields =>
            match List.lookup "questions" fields with
            | none => .error ()
            | some (.arr qs) => .ok (.list (qs.take 5))
            | some (.str s) => .ok (.text (String.mk (s.data.take 5)))
            | some _ => .error ()
          | _ => .error ()

/-- `RAG.get_related_questions`: the whole body is wrapped in
`try ... except Exception: return []`, so every failure collapses to the
empty list. -/
def getRelatedQuestions (parse : String → Option Json) (call : Except Unit ChatResponse) :
    RelatedAnswer :=
  match getRelatedInner parse call with
  | .ok v => v
  | .error _ => .list []

/-- The sentinel emitted between the contexts JSON and the completion text:
`"\n___LLM_RESPONSE___\n"`. -/
def llmSentinel : String := "\n___LLM_RESPONSE___\n"

/-- The sentinel emitted before the related-questions JSON:
`"\n\n__RELATED_QUESTIONS__\n\n"`. -/
def relatedSentinel : String := "\n\n__RELATED_QUESTIONS__\n\n"

/-- The literal notice chunk yielded when the context list is empty. -/
def noContextNotice : String :=
  "Could not get the context as the search engine did not return any answer for this query."

/-- One streamed completion chunk: the list `chunk.choices`, each choice
carrying `delta.content` (which may be `None`). -/
def LLMStream : Type := List (List (Option String))

/-- The chunks yielded from the completion stream:
`for chunk in llm_response: if chunk.choices: yield chunk.choices[0].delta.content or ""`. -/
def chunkYields (llm : LLMStream) : List String :=
  llm.filterMap fun ch =>
    match ch with
    | [] => none
    | c :: _ => some (c.getD "")

/-- `json.dumps(related_questions)` on the value `get_related_questions`
returns.  (`json.dumps` is total on these values, so the
`except`-branch that would substitute `"[]"` is unreachable.) -/
def dumpsRelated : RelatedAnswer → String
  | .list qs => jsonDump (.arr qs)
  | .text s => jsonStringLit s

/-- `RAG._raw_stream_response(contexts, llm_response, related_questions_future)`:
the ordered list of chunks the generator yields.  `relatedFuture = none`
models `related_questions_future is None`; otherwise the generator blocks on
`future.result()` (which by `get_related_questions` never raises) and yields
the sentinel followed by the dumped payload. -/
def rawStreamResponse (contexts : List Context) (llm : LLMStream)
    (relatedFuture : Option RelatedAnswer) : List String :=
  [contextsJson contexts]
  ++ [llmSentinel]
  ++ (if contexts.isEmpty then [noContextNotice] else [])
  ++ chunkYields llm
  ++ (match relatedFuture with
      | none => []
      | some r => [relatedSentinel, dumpsRelated r])

/-- `RAG.stream_and_upload_to_kv`: yields every chunk of
`_raw_stream_response` while accumulating them, then (once the stream is
consumed to completion) submits `kv.put(search_uuid, "".join(all_yielded_responses))`.
Returns the yielded chunk list together with the `(key, value)` pair of that
`kv.put` call. -/
def streamAndUploadToKV (contexts : List Context) (llm : LLMStream)
    (relatedFuture : Option RelatedAnswer) (search_uuid : String) :
    List String × (String × String) :=
  let ys := rawStreamResponse contexts llm relatedFuture
  (ys, (search_uuid, String.join ys))

/-- Outcome of `self.kv.get(search_uuid)`: a stored value, a `KeyError`, or
any other exception. -/
inductive KVResult where
  | found (value : String)
  | keyNotFound
  | otherError

/-- The configured backend (`os.environ["BACKEND"]`), after `init` has
validated it. -/
inductive Backend where
  | lepton
  | serper
  | searchapi
deriving DecidableEq

/-- The environment of one request: the behaviour of the external
collaborators as the handler observes them.
`search` is `self.search_function` (applied to the normalized query);
`completionSetup` is `client.chat.completions.create(...)` as a function of
the system prompt, erroring when the call raises before streaming begins;
`relatedSubmit` is the submission of the `get_related_questions` task,
carrying the value the future will resolve to;
`shouldDoRelatedQuestions` is `self.should_do_related_questions`. -/
structure Env where
  kvGet : KVResult
  backend : Backend
  search : String → SearchOutcome
  completionSetup : String → Except Unit LLMStream
  relatedSubmit : Except Unit RelatedAnswer
  shouldDoRelatedQuestions : Bool

/-- What the handler did to its collaborators while producing the response. -/
structure Effects where
  searchCalled : Bool
  completionCalled : Bool
  kvPut : Option (String × String)
deriving DecidableEq

/-- The response value `query_function` produces.  `httpException` models a
raised `HTTPException`; `htmlError` is `HTMLResponse(body, status)`;
`streamingCached` is `StreamingResponse(str_to_generator(result))` whose
whole body is the stored value; `streamingLive` is the streaming response
whose body is the concatenation of the listed chunks; `delegatedLepton` is
the `StreamingResponse` proxied from the lepton search API; `pythonError`
models an uncaught Python exception escaping the handler. -/
inductive Response where
  | streamingCached (body : String)
  | httpException (status : Nat) (detail : String)
  | delegatedLepton
  | htmlError (body : String) (status : Nat)
  | streamingLive (chunks : List String)
  | pythonError
deriving DecidableEq

/-- Removal of the `[INST]` / `[/INST]` markers:
`re.sub(r"\[/?INST\]", "", query)` (leftmost, non-overlapping). -/
def stripInstChars : List Char → List Char
  | [] => []
  | c :: rest =>
    if ("[INST]".data).isPrefixOf (c :: rest) then
      stripInstChars ((c :: rest).drop 6)
    else if ("[/INST]".data).isPrefixOf (c :: rest) then
      stripInstChars ((c :: rest).drop 7)
    else c :: stripInstChars rest
termination_by s => s.length
decreasing_by
  · simp [List.length_drop]; omega
  · simp [List.length_drop]; omega
  · simp

/-- `query = query or def_query` followed by
`query = re.sub(r"\[/?INST\]", "", query)`. -/
def normalizeQuery (query : String) : String :=
  String.mk (stripInstChars (if query = "" then def_query else query).data)

/-- The `try` block around the completion call and the related-questions
task submission in `query_function`: first
`client.chat.completions.create(...)` (function of the system prompt), then
— only when `self.should_do_related_questions and generate_related_questions`
— `self.executor.submit(self.get_related_questions, ...)`.  An exception in
either step makes the whole block fail. -/
def setupPhase (env : Env) (systemPrompt : String) (generate_related_questions : Bool) :
    Except Unit (LLMStream × Option RelatedAnswer) :=
  match env.completionSetup systemPrompt with
  | .error _ => .error ()
  | .ok llm =>
    if env.shouldDoRelatedQuestions && generate_related_questions then
      match env.relatedSubmit with
      | .error _ => .error ()
      | .ok r => .ok (llm, some r)
    else .ok (llm, none)

/-- The live-generation tail of `query_function` (everything after the cache
lookup has failed): backend dispatch, query normalization, search call,
prompt build, completion/related setup, and the streaming response.  A
search failure propagates out of the handler; a `None` context list (the
SearchAPI missing-return bug) makes the later `enumerate(contexts)` raise
`TypeError`; a setup failure yields
`HTMLResponse("Internal Server Error.", 503)` with no `kv.put`. -/
def liveGenerate (env : Env) (query search_uuid : String)
    (generate_related_questions : Bool) : Response × Effects :=
  match env.backend with
  | .lepton => (.delegatedLepton, ⟨false, false, none⟩)
  | _ =>
    match env.search (normalizeQuery query) with
    | .httpStatusError s d => (.httpException s d, ⟨true, false, none⟩)
    | .typeError => (.pythonError, ⟨true, false, none⟩)
    | .pyNone => (.pythonError, ⟨true, false, none⟩)
    | .ok contexts =>
      match setupPhase env (ragSystemPrompt contexts) generate_related_questions with
      | .error _ => (.htmlError "Internal Server Error." 503, ⟨true, true, none⟩)
      | .ok (llm, relatedFuture) =>
        let out := streamAndUploadToKV contexts llm relatedFuture search_uuid
        (.streamingLive out.1, ⟨true, true, some out.2⟩)

/-- `RAG.query_function(query, search_uuid, generate_related_questions)`.
An empty `search_uuid` raises `HTTPException(400, "search_uuid must be
provided.")` before touching any collaborator.  Otherwise `kv.get` is tried:
a stored value is replayed verbatim as the whole response body, and both a
`KeyError` and any other cache exception fall through to live generation. -/
def queryFunction (env : Env) (query search_uuid : String)
    (generate_related_questions : Bool) : Response × Effects :=
  if search_uuid = "" then
    (.httpException 400 "search_uuid must be provided.", ⟨false, false, none⟩)
  else
    match env.kvGet with
    | .found v => (.streamingCached v, ⟨false, false, none⟩)
    | .keyNotFound => liveGenerate env query search_uuid generate_related_questions
    | .otherError => liveGenerate env query search_uuid generate_related_questions

/-- Number of occurrences of `pat` in `s`: the number of positions of `s`
at which `pat` matches. -/
def occCount (pat : List Char) : List Char → Nat
  | [] => 0
  | c :: t => (if pat.isPrefixOf (c :: t) then 1 else 0) + occCount pat t

/-- The characters every citation marker starts with. -/
def coreChars : List Char := "[[citation:".data

/-- The characters of the citation marker numbered `j`:
`[[citation:j]]`. -/
def markerChars (j : Nat) : List Char := ("[[citation:" ++ toString j ++ "]]").data

/-- `hasMarkersFrom i m s`: the markers numbered `i, i+1, ..., i+m-1` occur
in `s` in this order (each one after the previous). -/
def hasMarkersFrom : Nat → Nat → List Char → Prop
  | _, 0, _ => True
  | i, m + 1, s => ∃ a b, s = a ++ markerChars i ++ b ∧ hasMarkersFrom (i + 1) m b

/-- A well-formed Serper response with one complete organic result: the
input on which `search_with_serper` raises `TypeError` from
`c.get["snippet", ""]`. -/
def serperBugResponse : SerperResponse :=
  ⟨200, none, none, some [⟨some "Example title", some "https://example.com", some "an example snippet"⟩]⟩

/-- A well-formed SearchAPI response with one complete organic result and no
`related_questions`: the input on which `search_with_searchapi` falls off
its end and returns `None`. -/
def searchapiBugResponse : SearchApiResponse :=
  ⟨200, none, none, some [⟨some "Example title", some "https://example.com", some "an example snippet"⟩], none⟩

/-- A one-element context list whose snippet itself contains the marker
`[[citation:2]]`. -/
def ctxsCex : List Context := [⟨"n", "u", "see [[citation:2]] end"⟩]

/-- A two-element context list with marker-free snippets. -/
def ctxsWitness : List Context := [⟨"n1", "u1", "alpha snippet"⟩, ⟨"n2", "u2", "beta snippet"⟩]

/-- A context used by the concrete live-generation environment. -/
def ctxLive : Context := ⟨"n", "u", "snip"⟩

/-- A completion stream used by the concrete environments. -/
def llmLive : LLMStream := [[some "Hello"], [some " world"]]

/-- A concrete environment: cache miss, serper backend, one search result,
a two-chunk completion stream, related questions globally disabled. -/
def envLive : Env :=
  ⟨.keyNotFound, .serper, fun _ => .ok [ctxLive], fun _ => .ok llmLive, .ok (.list []), false⟩

/-- The chunks the live run of `envLive` emits. -/
def liveChunks : List String := rawStreamResponse [ctxLive] llmLive none

/-- `envLive` after the live run stored its envelope in the cache. -/
def envReplay : Env :=
  ⟨.found (String.join liveChunks), .serper, fun _ => .ok [ctxLive], fun _ => .ok llmLive, .ok (.list []), false⟩

/-- `envLive` with the cache lookup failing with a non-`KeyError` exception. -/
def envCacheErr : Env :=
  ⟨.otherError, .serper, fun _ => .ok [ctxLive], fun _ => .ok llmLive, .ok (.list []), false⟩

/-- A concrete environment with the related-questions feature enabled both
per-request and globally. -/
def envRelated : Env :=
  ⟨.keyNotFound, .searchapi, fun _ => .ok [ctxLive], fun _ => .ok llmLive, .ok (.list [.str "q1"]), true⟩

/-- A concrete environment whose completion call raises during setup. -/
def envSetupFail : Env :=
  ⟨.keyNotFound, .serper, fun _ => .ok [ctxLive], fun _ => .error (), .ok (.list []), false⟩

/-- A concrete environment whose search returns zero contexts. -/
def envNoCtx : Env :=
  ⟨.keyNotFound, .serper, fun _ => .ok [], fun _ => .ok llmLive, .ok (.list []), false⟩

/-- A `json.loads` model that always fails, for concrete instantiations. -/
def parseNone : String → Option Json := fun _ => none

theorem not_prefix_cons_of_notMem {pat : List Char} (hne : pat ≠ []) {d : Char}
    (hd : d ∉ pat) (s : List Char) : ¬ pat <+: (d :: s) := by
  intro h
  rcases pat with _ | ⟨p, ps⟩
  · exact hne rfl
  · obtain ⟨rfl, -⟩ := List.cons_prefix_cons.mp h
    exact hd (List.mem_cons_self _ _)

theorem occCount_cons_notMem {pat : List Char} (hne : pat ≠ []) {d : Char}
    (hd : d ∉ pat) (s : List Char) : occCount pat (d :: s) = occCount pat s := by
  have h := not_prefix_cons_of_notMem hne hd s
  simp only [occCount]
  rw [if_neg (by rw [ List.isPrefixOf_iff_prefix]; exact h)]
  omega

theorem prefix_of_append_of_notMem {pat u v : List Char} {d : Char}
    (hd : d ∉ pat) (h : pat <+: u ++ d :: v) : pat <+: u := by
  induction u generalizing pat with
  | nil =>
    rcases pat with _ | ⟨p, ps⟩
    · exact List.nil_prefix
    · rw [List.nil_append] at h
      obtain ⟨rfl, -⟩ := List.cons_prefix_cons.mp h
      exact absurd (List.mem_cons_self _ _) hd
  | cons x u ih =>
    rcases pat with _ | ⟨p, ps⟩
    · exact List.nil_prefix
    · rw [List.cons_append] at h
      obtain ⟨rfl, h2⟩ := List.cons_prefix_cons.mp h
      exact List.cons_prefix_cons.mpr
        ⟨rfl, ih (fun hm => hd (List.mem_cons_of_mem _ hm)) h2⟩

theorem occCount_append_cons (pat : List Char) (hne : pat ≠ []) {d : Char}
    (hd : d ∉ pat) (a b : List Char) :
    occCount pat (a ++ d :: b) = occCount pat a + occCount pat b := by
  induction a with
  | nil =>
    rw [List.nil_append, occCount_cons_notMem hne hd b]
    simp [occCount]
  | cons c a ih =>
    rw [List.cons_append]
    simp only [occCount]
    rw [ih]
    by_cases hp : pat <+: c :: a
    · have hq : pat <+: c :: (a ++ d :: b) := by
        rw [← List.cons_append]
        exact hp.trans (List.prefix_append _ _)
      rw [if_pos (List.isPrefixOf_iff_prefix.mpr hq),
          if_pos (List.isPrefixOf_iff_prefix.mpr hp)]
      omega
    · have hq : ¬ pat <+: c :: (a ++ d :: b) := by
        intro h1
        rw [← List.cons_append] at h1
        exact hp (prefix_of_append_of_notMem hd h1)
      rw [if_neg (by rw [ List.isPrefixOf_iff_prefix]; exact hq),
          if_neg (by rw [ List.isPrefixOf_iff_prefix]; exact hp)]
      omega

theorem occCount_append_head (pat : List Char) (hne : pat ≠ []) {d : Char}
    (hd : d ∉ pat) (a b : List Char) (hb : b.head? = some d) :
    occCount pat (a ++ b) = occCount pat a + occCount pat b := by
  rcases b with _ | ⟨x, b⟩
  · simp at hb
  · rw [List.head?_cons] at hb
    injection hb with hx
    subst hx
    rw [occCount_append_cons pat hne hd a b, occCount_cons_notMem hne hd b]

theorem occCount_append_last (pat : List Char) (hne : pat ≠ []) {d : Char}
    (hd : d ∉ pat) (a b : List Char) (ha : a.getLast? = some d) :
    occCount pat (a ++ b) = occCount pat a + occCount pat b := by
  obtain ⟨a2, rfl⟩ := List.getLast?_eq_some_iff.mp ha
  rw [List.append_assoc, List.singleton_append]
  rw [occCount_append_cons pat hne hd a2 b]
  have h2 : occCount pat (a2 ++ [d]) = occCount pat a2 + occCount pat [] :=
    occCount_append_cons pat hne hd a2 []
  rw [h2]
  simp [occCount]

theorem occCount_ext_le (pat ext s : List Char) :
    occCount (pat ++ ext) s ≤ occCount pat s := by
  induction s with
  | nil => simp [occCount]
  | cons c t ih =>
    simp only [occCount]
    by_cases h : (pat ++ ext) <+: c :: t
    · have h2 : pat <+: c :: t := (List.prefix_append pat ext).trans h
      rw [if_pos (List.isPrefixOf_iff_prefix.mpr h),
          if_pos (List.isPrefixOf_iff_prefix.mpr h2)]
      omega
    · rw [if_neg (by rw [ List.isPrefixOf_iff_prefix]; exact h)]
      split <;> omega

theorem occCount_ext_zero (pat ext s : List Char) (h : occCount pat s = 0) :
    occCount (pat ++ ext) s = 0 :=
  Nat.le_zero.mp (h ▸ occCount_ext_le pat ext s)

theorem occCount_joinSep_data (pat : List Char) (hne : pat ≠ [])
    (hnl : ('\n' : Char) ∉ pat) (lines : List String) :
    occCount pat (joinSep "\n\n" lines).data
      = (lines.map fun l => occCount pat l.data).sum := by
  induction lines with
  | nil =>
    simp only [joinSep, List.map_nil, List.sum_nil]
    rfl
  | cons l rest ih =>
    cases rest with
    | nil =>
      simp only [joinSep, List.map_cons, List.map_nil, List.sum_cons, List.sum_nil]
      omega
    | cons m rest2 =>
      show occCount pat (l ++ "\n\n" ++ joinSep "\n\n" (m :: rest2)).data = _
      rw [String.data_append, String.data_append]
      have hd2 : ("\n\n" : String).data = '\n' :: '\n' :: [] := rfl
      rw [hd2]
      simp only [List.append_assoc, List.cons_append, List.nil_append]
      rw [occCount_append_cons pat hne hnl l.data
        ('\n' :: (joinSep "\n\n" (m :: rest2)).data)]
      rw [occCount_cons_notMem hne hnl]
      rw [ih]
      simp only [List.map_cons, List.sum_cons]

theorem citationLine_data (i : Nat) (c : Context) :
    (citationLine i c).data = markerChars (i + 1) ++ ' ' :: c.snippet.data := by
  unfold citationLine markerChars
  simp only [String.data_append]
  simp [List.append_assoc]

theorem occCount_marker_line (pat : List Char) (hne : pat ≠ [])
    (hsp : (' ' : Char) ∉ pat) (k : Nat) (s : List Char) :
    occCount pat (markerChars k ++ ' ' :: s)
      = occCount pat (markerChars k) + occCount pat s :=
  occCount_append_cons pat hne hsp (markerChars k) s

theorem occCount_prompt (pat : List Char) (hne : pat ≠ [])
    (hnl : ('\n' : Char) ∉ pat) (hsp : (' ' : Char) ∉ pat) (ctxs : List Context) :
    occCount pat (ragSystemPrompt ctxs).data
      = occCount pat ragTemplateHead.data
        + ((pyEnumerate ctxs).map fun p =>
            occCount pat (markerChars (p.1 + 1)) + occCount pat p.2.snippet.data).sum
        + occCount pat ragTemplateTail.data := by
  unfold ragSystemPrompt formatRagQuery
  simp only [String.data_append]
  rw [occCount_append_head pat hne hnl
    (ragTemplateHead.data ++ (contextBlock ctxs).data) ragTemplateTail.data (by rfl)]
  rw [occCount_append_last pat hne hnl
    ragTemplateHead.data (contextBlock ctxs).data (by rfl)]
  unfold contextBlock
  rw [occCount_joinSep_data pat hne hnl]
  rw [List.map_map]
  have hmap : ((fun l : String => occCount pat l.data) ∘ fun p : Nat × Context => citationLine p.1 p.2)
      = fun p : Nat × Context =>
          occCount pat (markerChars (p.1 + 1)) + occCount pat p.2.snippet.data := by
    funext p
    simp only [Function.comp]
    rw [citationLine_data, occCount_marker_line pat hne hsp]
  rw [hmap]

theorem markerChars_ne_nil (j : Nat) (h1 : 1 ≤ j) (h4 : j ≤ 4) : markerChars j ≠ [] := by
  interval_cases j <;> decide

theorem newline_notMem_marker (j : Nat) (h1 : 1 ≤ j) (h4 : j ≤ 4) :
    ('\n' : Char) ∉ markerChars j := by
  interval_cases j <;> decide

theorem space_notMem_marker (j : Nat) (h1 : 1 ≤ j) (h4 : j ≤ 4) :
    (' ' : Char) ∉ markerChars j := by
  interval_cases j <;> decide

theorem coreChars_ne_nil : coreChars ≠ [] := by decide

theorem newline_notMem_core : ('\n' : Char) ∉ coreChars := by decide

theorem space_notMem_core : (' ' : Char) ∉ coreChars := by decide

theorem marker_head_zero (j : Nat) (h1 : 1 ≤ j) (h4 : j ≤ 4) :
    occCount (markerChars j) ragTemplateHead.data = 0 := by
  interval_cases j <;> decide

theorem marker_tail_zero (j : Nat) (h1 : 1 ≤ j) (h4 : j ≤ 4) :
    occCount (markerChars j) ragTemplateTail.data = 0 := by
  interval_cases j <;> decide

theorem core_head_one : occCount coreChars ragTemplateHead.data = 1 := by decide

theorem core_tail_zero : occCount coreChars ragTemplateTail.data = 0 := by decide

theorem marker_in_marker (j k : Nat) (hj1 : 1 ≤ j) (hj4 : j ≤ 4)
    (hk1 : 1 ≤ k) (hk4 : k ≤ 4) :
    occCount (markerChars j) (markerChars k) = if j = k then 1 else 0 := by
  interval_cases j <;> interval_cases k <;> decide

theorem core_in_marker (k : Nat) (hk1 : 1 ≤ k) (hk4 : k ≤ 4) :
    occCount coreChars (markerChars k) = 1 := by
  interval_cases k <;> decide

theorem marker_snippet_zero (j : Nat) (h1 : 1 ≤ j) (h4 : j ≤ 4) (s : List Char)
    (h : occCount coreChars s = 0) : occCount (markerChars j) s = 0 := by
  interval_cases j
  · have he : markerChars 1 = coreChars ++ ('1' :: ']' :: ']' :: []) := by decide
    rw [he]; exact occCount_ext_zero _ _ _ h
  · have he : markerChars 2 = coreChars ++ ('2' :: ']' :: ']' :: []) := by decide
    rw [he]; exact occCount_ext_zero _ _ _ h
  · have he : markerChars 3 = coreChars ++ ('3' :: ']' :: ']' :: []) := by decide
    rw [he]; exact occCount_ext_zero _ _ _ h
  · have he : markerChars 4 = coreChars ++ ('4' :: ']' :: ']' :: []) := by decide
    rw [he]; exact occCount_ext_zero _ _ _ h

theorem queryFunction_live (env : Env) (q uuid : String) (g : Bool)
    (huuid : uuid ≠ "")
    (hkv : env.kvGet = .keyNotFound ∨ env.kvGet = .otherError) :
    queryFunction env q uuid g = liveGenerate env q uuid g := by
  unfold queryFunction
  rw [if_neg huuid]
  rcases hkv with h | h <;> rw [h]

/-- Claim C2: with a non-empty `search_uuid`, a cache lookup failing with
`KeyError` or with any other exception makes the handler proceed to live
generation (backend dispatch, search, prompt build, completion setup,
streaming), and the response is exactly the live-generation response — the
cache failure itself is never surfaced to the client. -/
theorem cache_failure_proceeds_to_live (env : Env) (q uuid : String) (g : Bool)
    (huuid : uuid ≠ "")
    (hkv : env.kvGet = .keyNotFound ∨ env.kvGet = .otherError) :
    queryFunction env q uuid g = liveGenerate env q uuid g :=
  queryFunction_live env q uuid g huuid hkv

theorem cache_failure_proceeds_to_live_witness :
    queryFunction envCacheErr "q" "id" false = liveGenerate envCacheErr "q" "id" false :=
  cache_failure_proceeds_to_live envCacheErr "q" "id" false (by decide) (Or.inr rfl)

/-- Claim C3 (code bug): `search_with_searchapi` is supposed to return an
ordered context list of length at most `REFERENCES_COUNT`, but its
`return contexts[:REFERENCES_COUNT]` statement is nested inside the
`if json_content.get("related_questions"):` block, so on a well-formed
response with organic results and no related questions the function falls
off its end and returns Python `None` instead of a list. -/
theorem searchapi_missing_return_bug :
    searchWithSearchapi searchapiBugResponse = .pyNone := rfl

/-- Claim C4 (code bug): in `search_with_serper` the organic-results
comprehension reads `c.get["snippet", ""]`, which subscripts the bound
method `c.get` and raises `TypeError` on any response whose first organic
entry has both `title` and `link`; only `KeyError` is caught, so the
exception escapes to the caller even though the response is well formed. -/
theorem serper_organic_typeerror_bug :
    searchWithSerper serperBugResponse = .typeError := rfl

/-- Claim C7: an empty `search_uuid` raises
`HTTPException(400, "search_uuid must be provided.")` before any cache,
search, or completion call (the effect record shows neither provider was
invoked, and no cache write happened).  An absent field is rejected by the
surrounding HTTP framework, an external collaborator. -/
theorem empty_uuid_rejected_400 (env : Env) (q : String) (g : Bool) :
    queryFunction env q "" g
      = (.httpException 400 "search_uuid must be provided.", ⟨false, false, none⟩) := by
  unfold queryFunction
  simp

/-- Claim C5: `get_related_questions` never lets an exception escape (its
body is one `try ... except Exception: return []`), returns at most 5
entries (`related["questions"][:5]`), and every failure in the completion
call, the tool-call extraction, or the JSON parsing yields the empty
sequence. -/
theorem related_questions_bounded_and_absorbing (parse : String → Option Json)
    (call : Except Unit ChatResponse) :
    relatedLen (getRelatedQuestions parse call) ≤ 5 ∧
      (getRelatedInner parse call = .error () →
        getRelatedQuestions parse call = .list []) := by
  constructor
  · unfold getRelatedQuestions
    rcases hi : getRelatedInner parse call with e | v
    · simp [relatedLen]
    · simp only []
      have hlook : ∀ (fields : List (String × Json)),
          (match List.lookup "questions" fields with
            | none => (.error () : Except Unit RelatedAnswer)
            | some (.arr qs) => .ok (.list (qs.take 5))
            | some (.str s) => .ok (.text (String.mk (s.data.take 5)))
            | some _ => .error ()) = .ok v → relatedLen v ≤ 5 := by
        intro fields hj
        rcases hl : List.lookup "questions" fields with _ | q
        · rw [hl] at hj; exact absurd hj (by simp)
        · rw [hl] at hj
          rcases q with _ | b | n | s | elems | f2
          case arr =>
            have hj2 : Except.ok (RelatedAnswer.list (elems.take 5)) = Except.ok v := hj
            injection hj2 with hv
            subst hv
            simp [relatedLen, List.length_take]
          case str =>
            have hj2 : Except.ok (RelatedAnswer.text (String.mk (s.data.take 5)))
                = Except.ok v := hj
            injection hj2 with hv
            subst hv
            have h : relatedLen (.text (String.mk (s.data.take 5)))
                = (s.data.take 5).length := rfl
            rw [h, List.length_take]
            omega
          all_goals exact absurd hj (by simp)
      have hval : ∀ (oj : Option Json),
          (match oj with
            | none => (.error () : Except Unit RelatedAnswer)
            | some related =>
              match related with
              | .obj fields =>
                match List.lookup "questions" fields with
                | none => .error ()
                | some (.arr qs) => .ok (.list (qs.take 5))
                | some (.str s) => .ok (.text (String.mk (s.data.take 5)))
                | some _ => .error ()
              | _ => .error ()) = .ok v → relatedLen v ≤ 5 := by
        intro oj hj
        rcases oj with _ | rel
        · exact absurd hj (by simp)
        · rcases rel with _ | b | n | s | elems | fields
          case obj => exact hlook fields hj
          all_goals exact absurd hj (by simp)
      unfold getRelatedInner at hi
      rcases call with e | resp
      · exact absurd hi (by simp)
      · obtain ⟨choices⟩ := resp
        rcases choices with _ | ⟨choice, crest⟩
        · exact absurd hi (by simp)
        · obtain ⟨⟨tcs⟩⟩ := choice
          rcases tcs with _ | tlist
          · exact absurd hi (by simp)
          · rcases tlist with _ | ⟨tc, trest⟩
            · exact absurd hi (by simp)
            · obtain ⟨⟨args⟩⟩ := tc
              rcases args with s | j
              · exact hval (parse s) hi
              · exact hval (some j) hi
  · intro h
    unfold getRelatedQuestions
    rw [h]

theorem related_questions_bounded_and_absorbing_witness :
    relatedLen (getRelatedQuestions parseNone (Except.error ())) ≤ 5 ∧
      getRelatedQuestions parseNone (Except.error ()) = .list [] :=
  ⟨(related_questions_bounded_and_absorbing parseNone (Except.error ())).1,
   (related_questions_bounded_and_absorbing parseNone (Except.error ())).2 rfl⟩

/-- Claim C6: when the completion call (or the related-questions task
submission, both inside the same `try` block) throws before any chunk is
streamed, the handler returns `HTMLResponse("Internal Server Error.", 503)`
and `kv.put` is never submitted for that request id. -/
theorem setup_error_503_no_kv_put (env : Env) (q uuid : String) (g : Bool)
    (ctxs : List Context)
    (huuid : uuid ≠ "")
    (hkv : env.kvGet = .keyNotFound ∨ env.kvGet = .otherError)
    (hb : env.backend ≠ .lepton)
    (hs : env.search (normalizeQuery q) = .ok ctxs)
    (hf : setupPhase env (ragSystemPrompt ctxs) g = .error ()) :
    queryFunction env q uuid g
      = (.htmlError "Internal Server Error." 503, ⟨true, true, none⟩) := by
  rw [queryFunction_live env q uuid g huuid hkv]
  cases hb2 : env.backend
  · exact absurd hb2 hb
  · simp [liveGenerate, hb2, hs, hf]
  · simp [liveGenerate, hb2, hs, hf]

theorem setup_error_503_no_kv_put_witness :
    queryFunction envSetupFail "q" "id" true
      = (.htmlError "Internal Server Error." 503, ⟨true, true, none⟩) :=
  setup_error_503_no_kv_put envSetupFail "q" "id" true [ctxLive]
    (by decide) (Or.inl rfl) (by decide) rfl rfl

theorem queryFunction_streamingLive_inv (env : Env) (q uuid : String) (g : Bool)
    (chunks : List String) (fx : Effects)
    (h : queryFunction env q uuid g = (.streamingLive chunks, fx)) :
    uuid ≠ "" ∧ fx.kvPut = some (uuid, String.join chunks) := by
  by_cases huuid : uuid = ""
  · rw [huuid] at h
    unfold queryFunction at h
    simp at h
  · refine ⟨huuid, ?_⟩
    unfold queryFunction at h
    rw [if_neg huuid] at h
    split at h
    · exact absurd h (by simp)
    all_goals (
      unfold liveGenerate at h
      split at h
      · exact absurd h (by simp)
      · split at h
        · exact absurd h (by simp)
        · exact absurd h (by simp)
        · exact absurd h (by simp)
        · split at h
          · exact absurd h (by simp)
          · simp [streamAndUploadToKV, Prod.mk.injEq] at h
            obtain ⟨hA, hB⟩ := h
            subst hA
            subst hB
            rfl)

/-- Claim C1: whenever a request ends in a live streaming response whose
stream is consumed to completion, the `kv.put` submitted for it stores,
under the request id, exactly the concatenation (in emission order) of every
chunk yielded to the client; and any subsequent request for the same id that
finds this stored value replays it verbatim as the entire response body,
with neither the search provider nor the completion provider being called. -/
theorem live_stream_kv_roundtrip (env : Env) (q uuid : String) (g : Bool)
    (chunks : List String) (fx : Effects)
    (h : queryFunction env q uuid g = (.streamingLive chunks, fx)) :
    fx.kvPut = some (uuid, String.join chunks) ∧
    ∀ (env2 : Env) (q2 : String) (g2 : Bool),
      env2.kvGet = .found (String.join chunks) →
      queryFunction env2 q2 uuid g2
        = (.streamingCached (String.join chunks), ⟨false, false, none⟩) := by
  obtain ⟨huuid, hput⟩ := queryFunction_streamingLive_inv env q uuid g chunks fx h
  refine ⟨hput, ?_⟩
  intro env2 q2 g2 h2
  unfold queryFunction
  rw [if_neg huuid, h2]

theorem live_stream_kv_roundtrip_witness :
    queryFunction envLive "q" "id" true
      = (.streamingLive liveChunks, ⟨true, true, some ("id", String.join liveChunks)⟩) ∧
    queryFunction envReplay "another query" "id" false
      = (.streamingCached (String.join liveChunks), ⟨false, false, none⟩) :=
  ⟨rfl,
   (live_stream_kv_roundtrip envLive "q" "id" true liveChunks
      ⟨true, true, some ("id", String.join liveChunks)⟩ rfl).2 envReplay "another query" false rfl⟩

theorem contextsJson_head (ctxs : List Context) :
    (contextsJson ctxs).data.head? = some '[' := by
  unfold contextsJson
  simp [String.data_append]

theorem contextsJson_ne_relatedSentinel (ctxs : List Context) :
    contextsJson ctxs ≠ relatedSentinel := by
  intro h
  have h2 := congrArg (fun s : String => s.data.head?) h
  simp only [] at h2
  rw [contextsJson_head] at h2
  exact absurd h2 (by decide)

/-- Claim C9: on the live path the related-questions sentinel segment is
emitted if and only if both the per-request flag and the global
configuration flag are true.  When both are true the envelope contains the
sentinel chunk; when the conjunction is false the envelope is built with no
related-questions future and (as long as no completion chunk happens to
equal the sentinel string) the sentinel appears nowhere in the stream. -/
theorem related_sentinel_iff_enabled (env : Env) (q uuid : String) (g : Bool)
    (ctxs : List Context) (llm : LLMStream) (rel : RelatedAnswer)
    (huuid : uuid ≠ "")
    (hkv : env.kvGet = .keyNotFound ∨ env.kvGet = .otherError)
    (hb : env.backend ≠ .lepton)
    (hs : env.search (normalizeQuery q) = .ok ctxs)
    (hc : env.completionSetup (ragSystemPrompt ctxs) = .ok llm)
    (hr : env.relatedSubmit = .ok rel) :
    ((env.shouldDoRelatedQuestions && g) = true →
      queryFunction env q uuid g
        = (.streamingLive (rawStreamResponse ctxs llm (some rel)),
           ⟨true, true, some (uuid, String.join (rawStreamResponse ctxs llm (some rel)))⟩)
      ∧ relatedSentinel ∈ rawStreamResponse ctxs llm (some rel)) ∧
    ((env.shouldDoRelatedQuestions && g) = false →
      queryFunction env q uuid g
        = (.streamingLive (rawStreamResponse ctxs llm none),
           ⟨true, true, some (uuid, String.join (rawStreamResponse ctxs llm none))⟩)
      ∧ ((∀ ch ∈ chunkYields llm, ch ≠ relatedSentinel) →
          relatedSentinel ∉ rawStreamResponse ctxs llm none)) := by
  have hlive : ∀ (ofut : Option RelatedAnswer),
      setupPhase env (ragSystemPrompt ctxs) g = .ok (llm, ofut) →
      queryFunction env q uuid g
        = (.streamingLive (rawStreamResponse ctxs llm ofut),
           ⟨true, true, some (uuid, String.join (rawStreamResponse ctxs llm ofut))⟩) := by
    intro ofut hst
    rw [queryFunction_live env q uuid g huuid hkv]
    cases hb2 : env.backend
    · exact absurd hb2 hb
    · simp [liveGenerate, hb2, hs, hst, streamAndUploadToKV]
    · simp [liveGenerate, hb2, hs, hst, streamAndUploadToKV]
  constructor
  · intro hflag
    have hst : setupPhase env (ragSystemPrompt ctxs) g = .ok (llm, some rel) := by
      simp [setupPhase, hc, hflag, hr]
    exact ⟨hlive (some rel) hst, by simp [rawStreamResponse]⟩
  · intro hflag
    have hst : setupPhase env (ragSystemPrompt ctxs) g = .ok (llm, none) := by
      simp [setupPhase, hc, hflag]
    refine ⟨hlive none hst, ?_⟩
    intro hch hmem
    unfold rawStreamResponse at hmem
    simp [List.mem_append] at hmem
    rcases hmem with h1 | h2 | ⟨-, h3⟩ | h4
    · exact contextsJson_ne_relatedSentinel ctxs h1.symm
    · exact absurd h2 (by decide)
    · exact absurd h3 (by decide)
    · exact hch relatedSentinel h4 rfl

theorem related_sentinel_iff_enabled_witness :
    ((envRelated.shouldDoRelatedQuestions && true) = true →
      queryFunction envRelated "q" "id" true
        = (.streamingLive (rawStreamResponse [ctxLive] llmLive (some (.list [.str "q1"]))),
           ⟨true, true,
            some ("id", String.join (rawStreamResponse [ctxLive] llmLive (some (.list [.str "q1"]))))⟩)
      ∧ relatedSentinel ∈ rawStreamResponse [ctxLive] llmLive (some (.list [.str "q1"]))) ∧
    ((envRelated.shouldDoRelatedQuestions && true) = false →
      queryFunction envRelated "q" "id" true
        = (.streamingLive (rawStreamResponse [ctxLive] llmLive none),
           ⟨true, true, some ("id", String.join (rawStreamResponse [ctxLive] llmLive none))⟩)
      ∧ ((∀ ch ∈ chunkYields llmLive, ch ≠ relatedSentinel) →
          relatedSentinel ∉ rawStreamResponse [ctxLive] llmLive none)) :=
  related_sentinel_iff_enabled envRelated "q" "id" true [ctxLive] llmLive (.list [.str "q1"])
    (by decide) (Or.inl rfl) (by decide) rfl rfl rfl

/-- Claim C10: when the search function returns zero contexts, the emitted
stream is still a live streaming response (not an error): it opens with the
JSON of the empty context list and the `___LLM_RESPONSE___` sentinel,
immediately followed by the literal no-context notice chunk, and then the
completion segment (and the optional related-questions segment). -/
theorem zero_contexts_notice_stream (env : Env) (q uuid : String) (g : Bool)
    (llm : LLMStream) (rel : Option RelatedAnswer)
    (huuid : uuid ≠ "")
    (hkv : env.kvGet = .keyNotFound ∨ env.kvGet = .otherError)
    (hb : env.backend ≠ .lepton)
    (hs : env.search (normalizeQuery q) = .ok [])
    (hst : setupPhase env (ragSystemPrompt []) g = .ok (llm, rel)) :
    (queryFunction env q uuid g).1
      = .streamingLive ([contextsJson [], llmSentinel, noContextNotice]
          ++ chunkYields llm
          ++ (match rel with
              | none => ([] : List String)
              | some r => [relatedSentinel, dumpsRelated r])) := by
  rw [queryFunction_live env q uuid g huuid hkv]
  cases hb2 : env.backend
  · exact absurd hb2 hb
  · simp [liveGenerate, hb2, hs, hst, streamAndUploadToKV, rawStreamResponse]
    cases rel <;> rfl
  · simp [liveGenerate, hb2, hs, hst, streamAndUploadToKV, rawStreamResponse]
    cases rel <;> rfl

theorem zero_contexts_notice_stream_witness :
    (queryFunction envNoCtx "q" "id" true).1
      = .streamingLive ([contextsJson [], llmSentinel, noContextNotice]
          ++ chunkYields llmLive ++ ([] : List String)) :=
  zero_contexts_notice_stream envNoCtx "q" "id" true llmLive none
    (by decide) (Or.inl rfl) (by decide) rfl rfl

theorem enum_mem_snd {α : Type} {p : Nat × α} :
    ∀ {i : Nat} {l : List α}, p ∈ enumerateFrom i l → p.2 ∈ l := by
  intro i l
  induction l generalizing i with
  | nil => intro h; simp [enumerateFrom] at h
  | cons a rest ih =>
    intro h
    simp only [enumerateFrom, List.mem_cons] at h
    rcases h with rfl | h
    · simp
    · exact List.mem_cons_of_mem _ (ih h)

theorem sum_marker_ind (j : Nat) (hj1 : 1 ≤ j) (hj4 : j ≤ 4)
    (ctxs : List Context) :
    ∀ (i : Nat), i + ctxs.length ≤ 4 →
    ((enumerateFrom i ctxs).map fun p =>
        occCount (markerChars j) (markerChars (p.1 + 1))).sum
      = if i < j ∧ j ≤ i + ctxs.length then 1 else 0 := by
  induction ctxs with
  | nil =>
    intro i hle
    simp only [enumerateFrom, List.map_nil, List.sum_nil, List.length_nil]
    split_ifs with hc
    · omega
    · rfl
  | cons c rest ih =>
    intro i hle
    simp only [enumerateFrom, List.map_cons, List.sum_cons, List.length_cons] at hle ⊢
    rw [marker_in_marker j (i + 1) hj1 hj4 (by omega) (by omega)]
    rw [ih (i + 1) (by omega)]
    split_ifs <;> omega

theorem sum_core_ind (ctxs : List Context) :
    ∀ (i : Nat), i + ctxs.length ≤ 4 →
    ((enumerateFrom i ctxs).map fun p =>
        occCount coreChars (markerChars (p.1 + 1))).sum = ctxs.length := by
  induction ctxs with
  | nil => intro i hle; simp [enumerateFrom]
  | cons c rest ih =>
    intro i hle
    simp only [enumerateFrom, List.map_cons, List.sum_cons, List.length_cons] at hle ⊢
    rw [core_in_marker (i + 1) (by omega) (by omega)]
    rw [ih (i + 1) (by omega)]
    omega

theorem hasMarkersFrom_prepend (i m : Nat) (pre s : List Char)
    (h : hasMarkersFrom i m s) : hasMarkersFrom i m (pre ++ s) := by
  cases m with
  | zero => trivial
  | succ m0 =>
    obtain ⟨a, b, heq, htail⟩ := h
    exact ⟨pre ++ a, b, by rw [heq]; simp [List.append_assoc], htail⟩

theorem hasMarkers_join (ctxs : List Context) :
    ∀ (i : Nat) (tail : List Char),
    hasMarkersFrom (i + 1) ctxs.length
      ((joinSep "\n\n" ((enumerateFrom i ctxs).map fun p => citationLine p.1 p.2)).data ++ tail) := by
  induction ctxs with
  | nil => intro i tail; trivial
  | cons c rest ih =>
    intro i tail
    cases rest with
    | nil =>
      refine ⟨[], ' ' :: c.snippet.data ++ tail, ?_, trivial⟩
      simp only [enumerateFrom, List.map_cons, List.map_nil, joinSep]
      rw [citationLine_data]
      simp [List.append_assoc]
    | cons c2 rest2 =>
      refine ⟨[], ' ' :: c.snippet.data ++ '\n' :: '\n' ::
        ((joinSep "\n\n" ((enumerateFrom (i + 1) (c2 :: rest2)).map fun p =>
            citationLine p.1 p.2)).data ++ tail), ?_, ?_⟩
      · show (joinSep "\n\n" (citationLine i c ::
            ((enumerateFrom (i + 1) (c2 :: rest2)).map fun p => citationLine p.1 p.2))).data ++ tail = _
        have hj : joinSep "\n\n" (citationLine i c ::
            ((enumerateFrom (i + 1) (c2 :: rest2)).map fun p => citationLine p.1 p.2))
            = citationLine i c ++ "\n\n" ++ joinSep "\n\n"
                ((enumerateFrom (i + 1) (c2 :: rest2)).map fun p => citationLine p.1 p.2) := by
          rfl
        rw [hj]
        simp only [String.data_append]
        rw [citationLine_data]
        simp [List.append_assoc]
      · have hpre := hasMarkersFrom_prepend (i + 1 + 1) (c2 :: rest2).length
          (' ' :: c.snippet.data ++ ['\n', '\n'])
          ((joinSep "\n\n" ((enumerateFrom (i + 1) (c2 :: rest2)).map fun p =>
              citationLine p.1 p.2)).data ++ tail)
          (ih (i + 1) tail)
        have hshape : (' ' :: c.snippet.data ++ ['\n', '\n'])
            ++ ((joinSep "\n\n" ((enumerateFrom (i + 1) (c2 :: rest2)).map fun p =>
                citationLine p.1 p.2)).data ++ tail)
            = ' ' :: c.snippet.data ++ '\n' :: '\n' ::
              ((joinSep "\n\n" ((enumerateFrom (i + 1) (c2 :: rest2)).map fun p =>
                  citationLine p.1 p.2)).data ++ tail) := by
          simp [List.append_assoc]
        rw [hshape] at hpre
        simpa using hpre

/-- Claim C8 (amended): for every context list of length `n ≤ 4` whose
snippets do not themselves contain the marker stem `[[citation:`, the system
prompt built for the completion call contains the citation marker
`[[citation:j]]` exactly once for each `1 ≤ j ≤ n`, no marker numbered
`n < j ≤ 4`, the `n` markers appear in list order, and the marker stem
occurs exactly `n + 1` times in the whole prompt (the single extra stem is
the template's fixed, unnumbered example `[[citation:x]]`).  The amendment
relative to the literal claim is the marker-free-snippet proviso, which the
counterexample `citation_markers_cex` shows is necessary. -/
theorem citation_markers_amended (ctxs : List Context) (hlen : ctxs.length ≤ 4)
    (hclean : ∀ c ∈ ctxs, occCount coreChars c.snippet.data = 0) :
    (∀ j, 1 ≤ j → j ≤ 4 →
      occCount (markerChars j) (ragSystemPrompt ctxs).data
        = if j ≤ ctxs.length then 1 else 0)
    ∧ occCount coreChars (ragSystemPrompt ctxs).data = ctxs.length + 1
    ∧ hasMarkersFrom 1 ctxs.length (ragSystemPrompt ctxs).data := by
  refine ⟨?_, ?_, ?_⟩
  · intro j hj1 hj4
    rw [occCount_prompt (markerChars j) (markerChars_ne_nil j hj1 hj4)
        (newline_notMem_marker j hj1 hj4) (space_notMem_marker j hj1 hj4),
      marker_head_zero j hj1 hj4, marker_tail_zero j hj1 hj4]
    unfold pyEnumerate
    have hmapc : (enumerateFrom 0 ctxs).map (fun p =>
          occCount (markerChars j) (markerChars (p.1 + 1))
            + occCount (markerChars j) p.2.snippet.data)
        = (enumerateFrom 0 ctxs).map (fun p =>
            occCount (markerChars j) (markerChars (p.1 + 1))) := by
      apply List.map_congr_left
      intro p hp
      rw [marker_snippet_zero j hj1 hj4 _ (hclean p.2 (enum_mem_snd hp))]
      omega
    rw [hmapc]
    rw [sum_marker_ind j hj1 hj4 ctxs 0 (by omega)]
    split_ifs <;> omega
  · rw [occCount_prompt coreChars coreChars_ne_nil newline_notMem_core
        space_notMem_core, core_head_one, core_tail_zero]
    unfold pyEnumerate
    have hmapc : (enumerateFrom 0 ctxs).map (fun p =>
          occCount coreChars (markerChars (p.1 + 1))
            + occCount coreChars p.2.snippet.data)
        = (enumerateFrom 0 ctxs).map (fun p =>
            occCount coreChars (markerChars (p.1 + 1))) := by
      apply List.map_congr_left
      intro p hp
      rw [hclean p.2 (enum_mem_snd hp)]
      omega
    rw [hmapc]
    rw [sum_core_ind ctxs 0 (by omega)]
    omega
  · have hps : (ragSystemPrompt ctxs).data
        = ragTemplateHead.data
          ++ ((joinSep "\n\n" ((enumerateFrom 0 ctxs).map fun p =>
                citationLine p.1 p.2)).data ++ ragTemplateTail.data) := by
      unfold ragSystemPrompt formatRagQuery contextBlock pyEnumerate
      simp [String.data_append, List.append_assoc]
    rw [hps]
    exact hasMarkersFrom_prepend 1 ctxs.length ragTemplateHead.data _
      (hasMarkers_join ctxs 0 ragTemplateTail.data)

/-- Counterexample to claim C8 as literally stated: a context list of
length 1 whose single snippet contains the text `[[citation:2]]` produces a
prompt containing a marker numbered 2, so the prompt does not contain
exactly `n = 1` markers numbered `1..n`. -/
theorem citation_markers_cex :
    ctxsCex.length = 1 ∧
    occCount (markerChars 2) (ragSystemPrompt ctxsCex).data = 1 := by
  refine ⟨rfl, ?_⟩
  rw [occCount_prompt (markerChars 2) (by decide) (by decide) (by decide)]
  rw [marker_head_zero 2 (by norm_num) (by norm_num),
    marker_tail_zero 2 (by norm_num) (by norm_num)]
  simp only [ctxsCex, pyEnumerate, enumerateFrom, List.map_cons, List.map_nil,
    List.sum_cons, List.sum_nil]
  norm_num
  rw [marker_in_marker 2 1 (by norm_num) (by norm_num) (by norm_num) (by norm_num)]
  have hs : occCount (markerChars 2)
      (("see [[citation:2]] end" : String).data) = 1 := by decide
  rw [hs]
  norm_num

theorem citation_markers_amended_witness :
    occCount (markerChars 2) (ragSystemPrompt ctxsWitness).data = 1
    ∧ occCount coreChars (ragSystemPrompt ctxsWitness).data = 3
    ∧ hasMarkersFrom 1 2 (ragSystemPrompt ctxsWitness).data := by
  obtain ⟨h1, h2, h3⟩ := citation_markers_amended ctxsWitness (by decide) (by decide)
  refine ⟨?_, ?_, ?_⟩
  · simpa [ctxsWitness] using h1 2 (by norm_num) (by norm_num)
  · simpa [ctxsWitness] using h2
  · exact h3
